import Mathlib

/-
  Verification of the scan-pipeline core of the Task_1_adminbot repository.

  The Python sources are shallowly embedded as Lean definitions:
  - SQLite tables become lists of row structures; every statement is modelled
    by its effect on those lists (INSERT OR IGNORE on a primary key becomes
    append-if-absent, UPDATE ... WHERE becomes a map over the rows).
  - Python datetimes are modelled as rational numbers of seconds, and float
    confidences as rationals (only order comparisons with 0 and 1 occur).
  - async functions are pure state-passing functions; external calls
    (LLM classification, Whisper transcription) are oracles supplied as
    function-valued parameters, with `none` standing for a raised exception.
  - logging and wall-clock timing fields (processing_time) have no
    observable effect on the verified behaviour and are not modelled.
-/

namespace AdminBot

/- ===== Data model (src/src/models/data.py) ===== -/

/-- Enumeration IncidentCategory of src/src/models/data.py. -/
inductive IncidentCategory
  | leak
  | inappropriate
  | spam
  | off_topic
  | security_risk
deriving DecidableEq, Repr

/-- Enumeration Severity of src/src/models/data.py. -/
inductive Severity
  | low
  | medium
  | high
  | critical
deriving DecidableEq, Repr

/-- Enumeration IncidentStatus of src/src/models/data.py. -/
inductive IncidentStatus
  | new
  | confirmed
  | false_positive
  | ignored
deriving DecidableEq, Repr

/-- MessageData of src/src/models/data.py. The datetime timestamp is
modelled as a rational number of seconds. -/
structure MessageData where
  chat_id : Int
  message_id : Int
  sender_id : Option Int := none
  sender_username : Option String := none
  text : Option String := none
  has_voice : Bool := false
  voice_path : Option String := none
  voice_transcription : Option String := none
  timestamp : Rat := 0
deriving DecidableEq, Repr

/-- Incident of src/src/models/data.py. The float confidence is modelled as
a rational (pydantic validates 0 <= confidence <= 1 at construction); the
detected_at default timestamp is not claim-relevant and is omitted. -/
structure Incident where
  id : Option Int := none
  message_id : Int
  chat_id : Int
  chat_name : String
  sender_id : Option Int := none
  sender_username : Option String := none
  category : IncidentCategory
  severity : Severity
  description : String
  confidence : Rat
  status : IncidentStatus := IncidentStatus.new
deriving DecidableEq, Repr

/-- ParticipantData of src/src/models/data.py. -/
structure ParticipantData where
  user_id : Int
  username : Option String := none
  first_name : Option String := none
  last_name : Option String := none
  is_bot : Bool := false
deriving DecidableEq, Repr

/-- ParticipantReport of src/src/models/data.py; the timestamp default is
not claim-relevant and is omitted. -/
structure ParticipantReport where
  chat_id : Int
  chat_name : String
  missing : List ParticipantData := []
  extra : List ParticipantData := []
deriving DecidableEq, Repr

/-- AnalysisResult of src/src/models/data.py (output of one LLM call). -/
structure AnalysisResult where
  incidents : List Incident
  total_analyzed : Nat
  incidents_found : Nat
  risk_level : String
deriving DecidableEq, Repr

/-- ChatAnalysisResult of src/src/models/data.py; processing_time is
wall-clock time and is not modelled. -/
structure ChatAnalysisResult where
  chat_id : Int
  chat_name : String
  messages_analyzed : Nat
  voices_transcribed : Nat
  incidents : List Incident
  participant_report : Option ParticipantReport := none
deriving DecidableEq, Repr

/-- GlobalReport of src/src/models/data.py. -/
structure GlobalReport where
  start_time : Rat
  end_time : Rat
  chats_scanned : Nat
  total_messages : Nat
  total_voices : Nat
  total_incidents : Nat
  critical_incidents : Nat
  high_incidents : Nat
  medium_incidents : Nat
  low_incidents : Nat
  missing_participants : Nat
  extra_participants : Nat
  duration_seconds : Rat
  missing_ids : List Int := []
  extra_ids : List Int := []
deriving DecidableEq, Repr

/- ===== Dedup/state store (src/src/storage/database.py) ===== -/

/-- The processed_ids table: rows (chat_id, message_id), primary-keyed on
the pair. Modelled as the list of rows in insertion order; the primary key
makes the pair list duplicate-free, which INSERT OR IGNORE preserves. -/
abbrev ProcessedIds := List (Int × Int)

/-- DatabaseManager.mark_as_processed (database.py lines 313-336): the loop
of INSERT OR IGNORE statements on processed_ids. A row is appended exactly
when its primary key (chat_id, message_id) is not yet present. The
secondary is_analyzed flag update on the messages table has no reader in
the dedup path and is not modelled. -/
def mark_as_processed (ps : ProcessedIds) (chat_id : Int) (message_ids : List Int) : ProcessedIds :=
  match message_ids with
  | [] => ps
  | mid :: rest =>
      mark_as_processed (if (chat_id, mid) ∈ ps then ps else ps ++ [(chat_id, mid)]) chat_id rest

/-- DatabaseManager.filter_new_messages (database.py lines 294-311):
returns the given ids minus those already recorded in processed_ids for
this chat, with an early return on empty input. The SQL query collects the
processed subset of message_ids; keeping mid when it is not in that subset
is the same as keeping mid when (chat_id, mid) is not a stored row. -/
def filter_new_messages (ps : ProcessedIds) (chat_id : Int) (message_ids : List Int) : List Int :=
  if message_ids.isEmpty then []
  else message_ids.filter (fun mid => decide ((chat_id, mid) ∉ ps))

/-- A row of the incidents table (database.py init_db), restricted to the
columns read or written by update_incident_status. -/
structure IncidentRow where
  id : Int
  chat_id : Int
  category : String
  severity : String
  status : String
  resolved_at : Option Rat := none
  resolved_by : Option Int := none
deriving DecidableEq, Repr

/-- DatabaseManager.update_incident_status (database.py lines 13-33):
resolved_at is datetime.now() when the new status is confirmed or
false_positive and NULL otherwise, and the UPDATE rewrites exactly the rows
whose id matches. An id matching no row leaves the table unchanged and the
call returns normally: no error of any kind is raised. `now` stands for
datetime.now(). -/
def update_incident_status (db : List IncidentRow) (incident_id : Int)
    (new_status : String) (resolved_by : Option Int) (now : Rat) : List IncidentRow :=
  let resolved_at := if new_status = "confirmed" ∨ new_status = "false_positive" then some now else none
  db.map (fun row =>
    if row.id = incident_id then
      { row with status := new_status, resolved_at := resolved_at, resolved_by := resolved_by }
    else row)

/-- Error kind used by the specification-side model of the store. -/
inductive DbError
  | notFound
deriving DecidableEq, Repr

/-- Modelled from the spec: `updateIncidentStatus(id, status, resolvedBy)`
fails with `NotFoundError` if id unknown. This NotFoundError path exists
nowhere in src/src/storage/database.py; the definition renders the words
of the spec so the source behaviour can be compared against it. -/
def updateIncidentStatusSpec (db : List IncidentRow) (incident_id : Int)
    (new_status : String) (resolved_by : Option Int) (now : Rat) :
    Except DbError (List IncidentRow) :=
  if db.all (fun row => row.id != incident_id) then
    Except.error DbError.notFound
  else
    Except.ok (update_incident_status db incident_id new_status resolved_by now)

/-- A row of the scan_logs table (database.py init_db). -/
structure ScanLogRow where
  id : Nat
  start_time : Rat
  end_time : Option Rat := none
  chats_scanned : Nat := 0
  messages_processed : Nat := 0
  voices_transcribed : Nat := 0
  incidents_found : Nat := 0
  status : String := "running"
  error_message : Option String := none
  duration_seconds : Option Rat := none
deriving DecidableEq, Repr

/-- The stats dict passed to update_scan_log by ScanJob.run. -/
structure ScanStats where
  start_time : Option Rat := none
  chats_scanned : Nat := 0
  messages_processed : Nat := 0
  voices_transcribed : Nat := 0
  incidents_found : Nat := 0
deriving DecidableEq, Repr

/-- DatabaseManager.create_scan_log (database.py lines 227-234): inserts a
row with status running and NULL end_time and returns its rowid (modelled
as one past the current row count). -/
def create_scan_log (db : List ScanLogRow) (start_time : Rat) : Nat × List ScanLogRow :=
  let new_id := db.length + 1
  (new_id, db ++ [{ id := new_id, start_time := start_time }])

/-- DatabaseManager.update_scan_log (database.py lines 236-263): duration
is end_time minus stats start_time when present, else 0; the UPDATE
rewrites the rows whose id matches log_id. -/
def update_scan_log (db : List ScanLogRow) (log_id : Nat) (end_time : Rat)
    (stats : ScanStats) (status : String) (error : Option String) : List ScanLogRow :=
  let duration : Rat := match stats.start_time with
    | some st => end_time - st
    | none => 0
  db.map (fun row =>
    if row.id = log_id then
      { row with
          end_time := some end_time,
          chats_scanned := stats.chats_scanned,
          messages_processed := stats.messages_processed,
          voices_transcribed := stats.voices_transcribed,
          incidents_found := stats.incidents_found,
          status := status,
          error_message := error,
          duration_seconds := some duration }
    else row)

/- ===== Chunked analyzer (src/src/core/analyzer.py) ===== -/

/-- Python truthiness of an optional string: non-None and non-empty. -/
def strTruthy : Option String → Bool
  | some s => s != ""
  | none => false

/-- The message filter of ContentAnalyzer.process_chat (analyzer.py line
53): `(msg.text and msg.text.strip()) or msg.has_voice`. A text passes
exactly when it is non-None and non-blank, i.e. its trim is non-empty. -/
def validMessage (m : MessageData) : Bool :=
  (match m.text with
   | some s => s.trim != ""
   | none => false) || m.has_voice

/-- External oracles of process_chat: `transcribe` is
WhisperClient.transcribe_voice keyed by message id (none = the call raised)
and `classify` is LLMClient.analyze_messages keyed by chunk index (none =
the call raised). -/
structure AnalyzerEnv where
  transcribe : Int → Option String
  classify : Nat → Option AnalysisResult

/-- The voice-handling loop body of process_chat (analyzer.py lines
77-107): when the message has a voice flag and a truthy voice_path, a
successful transcription stores the transcript and appends the delimited
annotation to the text (replacing it when the text was falsy); a failed
transcription leaves the message unchanged. Deletion of the temporary
audio file is a filesystem effect outside the model. -/
def transcribeStep (env : AnalyzerEnv) (m : MessageData) : MessageData :=
  if m.has_voice && strTruthy m.voice_path then
    match env.transcribe m.message_id with
    | some t =>
        let voice_text := "\n[Транскрипция голосового] " ++ t
        { m with
            voice_transcription := some t,
            text := some (match m.text with
              | some s => if s != "" then s ++ voice_text else voice_text
              | none => voice_text) }
    | none => m
  else m

/-- The filter-and-dedup prefix of process_chat (analyzer.py lines 53-62):
valid messages restricted to the ids filter_new_messages returns. The
source skips the second filter when no id was deduplicated; in that case
the filter keeps every element, so filtering unconditionally is
equivalent. -/
def dedup_working_set (ps : ProcessedIds) (chat_id : Int) (messages : List MessageData) :
    List MessageData :=
  let valid0 := messages.filter validMessage
  let new_ids := filter_new_messages ps chat_id (valid0.map (fun m => m.message_id))
  valid0.filter (fun m => decide (m.message_id ∈ new_ids))

/-- ContentAnalyzer._chunk_messages (analyzer.py lines 247-259): the slices
`messages[i:i+size]` for i in range(0, len(messages), size). For size >= 1
the first slice is `take size` and the remaining slices are the chunks of
`drop size`; `ms.drop (size - 1)` equals `(m :: ms).drop size` then. The
source raises ValueError when size = 0 (range step zero); that case is
outside every claim and the equations below are only used with 0 < size. -/
def _chunk_messages (messages : List MessageData) (size : Nat) : List (List MessageData) :=
  match messages with
  | [] => []
  | m :: ms => (m :: ms).take size :: _chunk_messages (ms.drop (size - 1)) size
termination_by messages.length
decreasing_by
  simp only [List.length_drop, List.length_cons]
  omega

/-- The chunk loop of process_chat (analyzer.py lines 116-129): chunk i is
classified by the oracle; on success the returned incidents are
accumulated and the chunk ids are marked processed (when a db is present);
on failure the loop logs and continues with the next chunk, leaving the
accumulator and the store untouched. -/
def chunkLoop (env : AnalyzerEnv) (chat_id : Int) (i : Nat)
    (chunks : List (List MessageData)) (acc : List Incident) (db : Option ProcessedIds) :
    List Incident × Option ProcessedIds :=
  match chunks with
  | [] => (acc, db)
  | chunk :: rest =>
    match env.classify i with
    | some res =>
        chunkLoop env chat_id (i + 1) rest (acc ++ res.incidents)
          (db.map (fun ps => mark_as_processed ps chat_id (chunk.map (fun m => m.message_id))))
    | none => chunkLoop env chat_id (i + 1) rest acc db

/-- The store component of chunkLoop when a store is present. -/
def chunkStores (env : AnalyzerEnv) (chat_id : Int) (i : Nat)
    (chunks : List (List MessageData)) (ps : ProcessedIds) : ProcessedIds :=
  match chunks with
  | [] => ps
  | chunk :: rest =>
    match env.classify i with
    | some _ =>
        chunkStores env chat_id (i + 1) rest
          (mark_as_processed ps chat_id (chunk.map (fun m => m.message_id)))
    | none => chunkStores env chat_id (i + 1) rest ps

/-- The chunk list process_chat submits to classification: the working set
after the in-place voice transcription pass, cut into chunks of 50. -/
def analysis_chunks (env : AnalyzerEnv) (chat_id : Int) (ps : ProcessedIds)
    (messages : List MessageData) : List (List MessageData) :=
  _chunk_messages ((dedup_working_set ps chat_id messages).map (transcribeStep env)) 50

/-- The dict `msg_map = {msg.message_id: msg for msg in valid_messages}` of
analyzer.py line 133: later entries overwrite earlier ones, so lookup finds
the last message with the given id. -/
def msg_map_lookup (l : List MessageData) (mid : Int) : Option MessageData :=
  l.reverse.find? (fun m => m.message_id == mid)

/-- The enrichment loop of process_chat (analyzer.py lines 135-144): an
incident whose message id is found in the working set receives that
message's sender fields; otherwise it is kept unchanged. -/
def enrich_incident (l : List MessageData) (inc : Incident) : Incident :=
  match msg_map_lookup l inc.message_id with
  | some m => { inc with sender_id := m.sender_id, sender_username := m.sender_username }
  | none => inc

/-- ContentAnalyzer.process_chat (analyzer.py lines 31-165) as a function
of the oracles, the inputs and the optional dedup store, returning the
ChatAnalysisResult together with the store after the run. -/
def process_chat (env : AnalyzerEnv) (chat_id : Int) (chat_name : String)
    (messages : List MessageData) (db : Option ProcessedIds) :
    ChatAnalysisResult × Option ProcessedIds :=
  let valid1 := match db with
    | some ps => dedup_working_set ps chat_id messages
    | none => messages.filter validMessage
  if valid1.isEmpty then
    ({ chat_id := chat_id, chat_name := chat_name, messages_analyzed := 0,
       voices_transcribed := 0, incidents := [] }, db)
  else
    let transcribed := valid1.map (transcribeStep env)
    let chunks := _chunk_messages transcribed 50
    let looped := chunkLoop env chat_id 0 chunks [] db
    let enriched := looped.1.map (enrich_incident transcribed)
    ({ chat_id := chat_id, chat_name := chat_name,
       messages_analyzed := transcribed.length,
       voices_transcribed := transcribed.countP (fun m => m.has_voice && strTruthy m.voice_transcription),
       incidents := enriched }, looped.2)

/-- ContentAnalyzer.aggregate_results (analyzer.py lines 167-245). The
Python accumulation loops (`all_incidents.extend`, the two id `extend`
loops) are folds over the chat results; datetime subtraction with
total_seconds is rational subtraction. -/
def aggregate_results (chat_results : List ChatAnalysisResult)
    (start_time end_time : Rat) : GlobalReport :=
  let total_messages := (chat_results.map (fun r => r.messages_analyzed)).sum
  let total_voices := (chat_results.map (fun r => r.voices_transcribed)).sum
  let missing_participants :=
    ((chat_results.filterMap (fun r => r.participant_report)).map (fun pr => pr.missing.length)).sum
  let extra_participants :=
    ((chat_results.filterMap (fun r => r.participant_report)).map (fun pr => pr.extra.length)).sum
  let all_incidents := chat_results.foldl (fun acc r => acc ++ r.incidents) []
  let critical_count := all_incidents.countP (fun inc => inc.severity == Severity.critical)
  let high_count := all_incidents.countP (fun inc => inc.severity == Severity.high)
  let medium_count := all_incidents.countP (fun inc => inc.severity == Severity.medium)
  let low_count := all_incidents.countP (fun inc => inc.severity == Severity.low)
  let duration_seconds := end_time - start_time
  let all_missing_ids := chat_results.foldl (fun acc r =>
    match r.participant_report with
    | some pr => acc ++ pr.missing.map (fun p => p.user_id)
    | none => acc) []
  let all_extra_ids := chat_results.foldl (fun acc r =>
    match r.participant_report with
    | some pr => acc ++ pr.extra.map (fun p => p.user_id)
    | none => acc) []
  { start_time := start_time,
    end_time := end_time,
    chats_scanned := chat_results.length,
    total_messages := total_messages,
    total_voices := total_voices,
    total_incidents := all_incidents.length,
    critical_incidents := critical_count,
    high_incidents := high_count,
    medium_incidents := medium_count,
    low_incidents := low_count,
    missing_participants := missing_participants,
    extra_participants := extra_participants,
    duration_seconds := duration_seconds,
    missing_ids := all_missing_ids,
    extra_ids := all_extra_ids }

/- ===== Participant reconciler (src/src/collector/participants.py) ===== -/

/-- The dict `current_map = {p.user_id: p for p in participants}` of
participants.py line 60: later entries overwrite earlier ones. -/
def participant_lookup (participants : List ParticipantData) (uid : Int) :
    Option ParticipantData :=
  participants.reverse.find? (fun p => p.user_id == uid)

/-- ParticipantCollector.compare_with_whitelist (participants.py lines
49-90). The Python code forms the two set differences of id sets; iteration
order over a Python set is unspecified, so the sets are modelled as
Finsets and the report lists enumerate them in ascending id order. Missing
entries are bare ids (ParticipantData with only user_id populated); extra
entries are the full snapshots from current_map. -/
def compare_with_whitelist (chat_id : Int) (chat_name : String)
    (participants : List ParticipantData) (whitelist : List Int) : ParticipantReport :=
  let current_ids : Finset Int := (participants.map (fun p => p.user_id)).toFinset
  let whitelist_ids : Finset Int := whitelist.toFinset
  let missing_ids := whitelist_ids \ current_ids
  let extra_ids := current_ids \ whitelist_ids
  let missing := (missing_ids.sort (fun a b => a ≤ b)).map (fun uid =>
    { user_id := uid : ParticipantData })
  let extra := (extra_ids.sort (fun a b => a ≤ b)).filterMap
    (fun uid => participant_lookup participants uid)
  { chat_id := chat_id, chat_name := chat_name, missing := missing, extra := extra }

/- ===== LLM parsing boundary (src/src/core/llm_client.py) ===== -/

/-- One entry of the `incidents` array of a decoded classifier response,
before validation: each field may be absent (a missing key raises KeyError
in the source). Confidence is modelled as a rational. -/
structure RawIncident where
  message_id : Option Int := none
  category : Option String := none
  severity : Option String := none
  description : Option String := none
  confidence : Option Rat := none
deriving DecidableEq, Repr

/-- The IncidentCategory constructor on strings: some member of the closed
enumeration, or none (a ValueError in the source). -/
def categoryOfString (s : String) : Option IncidentCategory :=
  if s = "leak" then some IncidentCategory.leak
  else if s = "inappropriate" then some IncidentCategory.inappropriate
  else if s = "spam" then some IncidentCategory.spam
  else if s = "off_topic" then some IncidentCategory.off_topic
  else if s = "security_risk" then some IncidentCategory.security_risk
  else none

/-- The Severity constructor on strings. -/
def severityOfString (s : String) : Option Severity :=
  if s = "low" then some Severity.low
  else if s = "medium" then some Severity.medium
  else if s = "high" then some Severity.high
  else if s = "critical" then some Severity.critical
  else none

/-- The per-incident try block of LLMClient.analyze_messages (llm_client.py
lines 176-192): a missing key (KeyError), an out-of-enumeration category or
severity (ValueError from the enum constructor) or an out-of-range
confidence (pydantic ValidationError, a ValueError, from the
`ge=0.0, le=1.0` field bound) is caught, logged and skipped, yielding no
incident; otherwise the Incident is built with the raw confidence
unchanged. -/
def parse_incident (chat_id : Int) (chat_name : String) (raw : RawIncident) :
    Option Incident :=
  match raw.message_id, raw.category, raw.severity, raw.description, raw.confidence with
  | some mid, some cat, some sev, some desc, some conf =>
    match categoryOfString cat, severityOfString sev with
    | some c, some s =>
        if 0 ≤ conf ∧ conf ≤ 1 then
          some { message_id := mid, chat_id := chat_id, chat_name := chat_name,
                 category := c, severity := s, description := desc, confidence := conf }
        else none
    | _, _ => none
  | _, _, _, _, _ => none

/-- The incident-collection loop of LLMClient.analyze_messages: failed
entries are logged and skipped, successful ones kept in order. -/
def parse_incidents (chat_id : Int) (chat_name : String) (raws : List RawIncident) :
    List Incident :=
  raws.filterMap (parse_incident chat_id chat_name)

/- ===== Scan orchestrator (src/src/scheduler/jobs.py) ===== -/

/-- External outcomes of one ScanJob.run cycle. `chat_outcomes` lists the
per-chat results of run_single_chat in order (none = the chat failed or
returned None and was skipped; per-chat exceptions are caught by the loop).
`create_log_fails` and `update_log_fails` say whether the two scan_logs
database calls raise (both are wrapped in try/except in the source);
`summary_fails` says whether the aggregation/summary-notification block
raises (also caught). -/
structure ScanEnv where
  create_log_fails : Bool
  chat_outcomes : List (Option ChatAnalysisResult)
  summary_fails : Bool
  update_log_fails : Bool

/-- ScanJob.run (jobs.py lines 49-135) restricted to its effect on the
scan_logs table, plus whether the summary notification went out. A failing
create_scan_log leaves log_id = None; the chat loop catches every per-chat
exception; the aggregation/notification block catches its own exceptions
and never touches scan_logs; the final update_scan_log runs only when a
log id exists, always passes status completed, and its own exception is
caught and merely logged, leaving the row as it was. -/
def ScanJob.run (env : ScanEnv) (db : List ScanLogRow)
    (scan_start scan_end : Rat) : List ScanLogRow × Bool :=
  let created : Option Nat × List ScanLogRow :=
    if env.create_log_fails then (none, db)
    else
      let c := create_scan_log db scan_start
      (some c.1, c.2)
  let chat_results := env.chat_outcomes.filterMap (fun r => r)
  let summary_sent := !env.summary_fails
  match created.1 with
  | none => (created.2, summary_sent)
  | some lid =>
      if env.update_log_fails then (created.2, summary_sent)
      else
        let stats : ScanStats :=
          { start_time := some scan_start,
            chats_scanned := chat_results.length,
            messages_processed := (chat_results.map (fun r => r.messages_analyzed)).sum,
            voices_transcribed := (chat_results.map (fun r => r.voices_transcribed)).sum,
            incidents_found := (chat_results.map (fun r => r.incidents.length)).sum }
        (update_scan_log created.2 lid scan_end stats "completed" none, summary_sent)

/- ===== Manual scan triggers (src/src/manager/handlers.py) ===== -/

/-- Observable bot state for the scan triggers: the number of ScanJob.run
tasks currently spawned (asyncio.create_task adds one) and the reply
transcript. -/
structure BotState where
  running_scans : Nat := 0
  replies : List String := []
deriving DecidableEq, Repr

/-- cmd_scan (handlers.py lines 52-65): after the admin check it replies
and unconditionally spawns a new ScanJob.run task; no flag or lock is
consulted before spawning. -/
def cmd_scan (admin_id from_user : Int) (s : BotState) : BotState :=
  if from_user != admin_id then
    { s with replies := s.replies ++ ["no_rights"] }
  else
    { s with replies := s.replies ++ ["scan_started"],
             running_scans := s.running_scans + 1 }

/-- handle_scan_now (handlers.py lines 173-184): same shape as cmd_scan,
again spawning unconditionally. -/
def handle_scan_now (admin_id from_user : Int) (s : BotState) : BotState :=
  if from_user != admin_id then
    { s with replies := s.replies ++ ["no_rights"] }
  else
    { s with replies := s.replies ++ ["scan_queued"],
             running_scans := s.running_scans + 1 }

/- ===== Store lemmas ===== -/

/-- Membership in the processed ledger after a mark: the old rows plus one
row per marked id for this chat. -/
theorem mem_mark_as_processed (chat : Int) (ids : List Int) (ps : ProcessedIds)
    (p : Int × Int) :
    p ∈ mark_as_processed ps chat ids ↔ p ∈ ps ∨ (p.1 = chat ∧ p.2 ∈ ids) := by
  induction ids generalizing ps with
  | nil => simp [mark_as_processed]
  | cons mid rest ih =>
    rw [mark_as_processed, ih]
    by_cases h : (chat, mid) ∈ ps
    · rw [if_pos h]
      constructor
      · rintro (hp | ⟨h1, h2⟩)
        · exact Or.inl hp
        · exact Or.inr ⟨h1, List.mem_cons_of_mem mid h2⟩
      · rintro (hp | ⟨h1, h2⟩)
        · exact Or.inl hp
        · rcases List.mem_cons.mp h2 with h2 | h2
          · left
            obtain ⟨pa, pb⟩ := p
            simp only at h1 h2
            subst h1
            subst h2
            exact h
          · exact Or.inr ⟨h1, h2⟩
    · rw [if_neg h]
      constructor
      · rintro (hp | ⟨h1, h2⟩)
        · rcases List.mem_append.mp hp with hp | hp
          · exact Or.inl hp
          · right
            have hpm : p = (chat, mid) := List.mem_singleton.mp hp
            subst hpm
            exact ⟨rfl, List.mem_cons_self _ _⟩
        · exact Or.inr ⟨h1, List.mem_cons_of_mem mid h2⟩
      · rintro (hp | ⟨h1, h2⟩)
        · exact Or.inl (List.mem_append.mpr (Or.inl hp))
        · rcases List.mem_cons.mp h2 with h2 | h2
          · left
            refine List.mem_append.mpr (Or.inr (List.mem_singleton.mpr ?_))
            obtain ⟨pa, pb⟩ := p
            simp only at h1 h2
            rw [h1, h2]
          · exact Or.inr ⟨h1, h2⟩

/-- Marking ids that are all already present does nothing. -/
theorem mark_as_processed_eq_self (chat : Int) (ids : List Int) (ps : ProcessedIds)
    (h : ∀ mid ∈ ids, (chat, mid) ∈ ps) :
    mark_as_processed ps chat ids = ps := by
  induction ids generalizing ps with
  | nil => rfl
  | cons mid rest ih =>
    rw [mark_as_processed, if_pos (h mid (List.mem_cons_self mid rest))]
    exact ih ps (fun x hx => h x (List.mem_cons_of_mem mid hx))

/-- filter_new_messages returns exactly the ids whose ledger row is absent. -/
theorem mem_filter_new_messages (ps : ProcessedIds) (chat : Int) (ids : List Int)
    (mid : Int) :
    mid ∈ filter_new_messages ps chat ids ↔ mid ∈ ids ∧ (chat, mid) ∉ ps := by
  unfold filter_new_messages
  by_cases h : ids.isEmpty
  · rw [if_pos h, List.isEmpty_iff.mp h]
    simp
  · rw [if_neg h]
    simp [List.mem_filter]

/- ===== Claim C5 ===== -/

/-- Claim C5: marking ids processed then filtering the same ids returns the
empty set; re-marking already-processed ids is a no-op (marking twice
equals marking once, and never errors, the functions being total); and
filtering with empty input returns empty (side-effect-free, the store
being passed by value and never modified by filter_new_messages). -/
theorem C5_dedup_algebra :
    ∀ (ps : ProcessedIds) (chat_id : Int) (message_ids : List Int),
      filter_new_messages (mark_as_processed ps chat_id message_ids) chat_id message_ids = [] ∧
      mark_as_processed (mark_as_processed ps chat_id message_ids) chat_id message_ids
        = mark_as_processed ps chat_id message_ids ∧
      filter_new_messages ps chat_id [] = [] := by
  intro ps chat_id message_ids
  refine ⟨?_, ?_, rfl⟩
  · rw [List.eq_nil_iff_forall_not_mem]
    intro mid hmid
    rw [mem_filter_new_messages] at hmid
    exact hmid.2 ((mem_mark_as_processed chat_id message_ids ps (chat_id, mid)).mpr
      (Or.inr ⟨rfl, hmid.1⟩))
  · exact mark_as_processed_eq_self chat_id message_ids _
      (fun mid hmid => (mem_mark_as_processed chat_id message_ids ps (chat_id, mid)).mpr
        (Or.inr ⟨rfl, hmid⟩))

/- ===== Claim C3 ===== -/

/-- Claim C3 counterexample: on a store holding only incident 2, updating
incident 1 returns normally and leaves the store unchanged — there is no
NotFoundError path in update_incident_status — while the spec-modelled
operation fails with NotFoundError on the same input. -/
theorem C3_unknown_id_silent_noop :
    update_incident_status
        [{ id := 2, chat_id := 5, category := "spam", severity := "low", status := "new" }]
        1 "confirmed" (some 9) 0
      = [{ id := 2, chat_id := 5, category := "spam", severity := "low", status := "new" }] ∧
    updateIncidentStatusSpec
        [{ id := 2, chat_id := 5, category := "spam", severity := "low", status := "new" }]
        1 "confirmed" (some 9) 0
      = Except.error DbError.notFound := by
  exact ⟨by decide, rfl⟩

/-- Claim C3 (amended): when the incident id matches no row,
update_incident_status silently leaves the store unchanged (returning
normally, not failing); and every row it rewrites — the rows whose id
matches — gets a non-null resolvedAt exactly when the new status is
confirmed or false_positive. -/
theorem C3_update_status_amended (db : List IncidentRow) (incident_id : Int)
    (new_status : String) (resolved_by : Option Int) (now : Rat) :
    ((∀ row ∈ db, row.id ≠ incident_id) →
        update_incident_status db incident_id new_status resolved_by now = db) ∧
    (∀ row2 ∈ update_incident_status db incident_id new_status resolved_by now,
        row2.id = incident_id →
        (row2.resolved_at.isSome ↔
          (new_status = "confirmed" ∨ new_status = "false_positive"))) := by
  constructor
  · intro h
    unfold update_incident_status
    induction db with
    | nil => rfl
    | cons row rest ih =>
      simp only [List.map_cons, if_neg (h row (List.mem_cons_self row rest))]
      rw [List.cons_inj_right]
      exact ih (fun r hr => h r (List.mem_cons_of_mem row hr))
  · intro row2 hrow2 hid
    unfold update_incident_status at hrow2
    rw [List.mem_map] at hrow2
    obtain ⟨row, hrow, heq⟩ := hrow2
    by_cases hmatch : row.id = incident_id
    · rw [if_pos hmatch] at heq
      rw [← heq]
      by_cases hterm : new_status = "confirmed" ∨ new_status = "false_positive"
      · simp [if_pos hterm, hterm]
      · simp [if_neg hterm, hterm]
    · rw [if_neg hmatch] at heq
      exact absurd (heq ▸ hid) hmatch

/-- Closed instance of C3_update_status_amended: the unknown-id branch at
a concrete store, and a concrete rewritten row getting a non-null
resolvedAt for the terminal status confirmed. -/
theorem C3_update_status_amended_witness :
    update_incident_status
        [{ id := 2, chat_id := 5, category := "spam", severity := "low", status := "new" }]
        7 "ignored" (some 9) 3
      = [{ id := 2, chat_id := 5, category := "spam", severity := "low", status := "new" }] ∧
    ({ id := 1, chat_id := 5, category := "spam", severity := "low", status := "confirmed",
       resolved_at := some 3, resolved_by := some 9 : IncidentRow }).resolved_at.isSome := by
  constructor
  · exact (C3_update_status_amended
      [{ id := 2, chat_id := 5, category := "spam", severity := "low", status := "new" }]
      7 "ignored" (some 9) 3).1 (by decide)
  · exact ((C3_update_status_amended
      [{ id := 1, chat_id := 5, category := "spam", severity := "low", status := "new" }]
      1 "confirmed" (some 9) 3).2
      { id := 1, chat_id := 5, category := "spam", severity := "low", status := "confirmed",
        resolved_at := some 3, resolved_by := some 9 }
      (by decide) (by decide)).mpr (Or.inl rfl)

/- ===== Claim C4 ===== -/

/-- Claim C4 counterexample: an incident entry that is valid except for an
out-of-range confidence of 3/2 is rejected (dropped from the accepted
list), not accepted with its confidence clamped to 1 — the parsing
boundary validates and discards, it never clamps. -/
theorem C4_confidence_not_clamped :
    parse_incident 1 "Chat"
        { message_id := some 2, category := some "leak", severity := some "high",
          description := some "d", confidence := some (3 / 2) } = none ∧
    parse_incidents 1 "Chat"
        [{ message_id := some 2, category := some "leak", severity := some "high",
           description := some "d", confidence := some (3 / 2) }] = [] := by
  have h1 : parse_incident 1 "Chat"
      { message_id := some 2, category := some "leak", severity := some "high",
        description := some "d", confidence := some (3 / 2) } = none := by
    have hcat : categoryOfString "leak" = some IncidentCategory.leak := by decide
    have hsev : severityOfString "high" = some Severity.high := by decide
    simp only [parse_incident, hcat, hsev]
    norm_num
  refine ⟨h1, ?_⟩
  unfold parse_incidents
  exact (List.filterMap_cons_none h1).trans rfl

/-- Claim C4 (amended): every incident the parsing boundary accepts keeps
its raw confidence, which therefore lies in [0,1]; an entry whose category
or severity is outside the closed enumerations, or whose confidence is
outside [0,1], is rejected (and logged in the source), never silently
accepted — but an out-of-range confidence leads to rejection of the entry,
not to clamping. -/
theorem C4_parse_boundary_amended (chat_id : Int) (chat_name : String)
    (raw : RawIncident) :
    (∀ inc, parse_incident chat_id chat_name raw = some inc →
        0 ≤ inc.confidence ∧ inc.confidence ≤ 1 ∧ raw.confidence = some inc.confidence) ∧
    (∀ cat, raw.category = some cat → categoryOfString cat = none →
        parse_incident chat_id chat_name raw = none) ∧
    (∀ sev, raw.severity = some sev → severityOfString sev = none →
        parse_incident chat_id chat_name raw = none) ∧
    (∀ conf, raw.confidence = some conf → ¬ (0 ≤ conf ∧ conf ≤ 1) →
        parse_incident chat_id chat_name raw = none) := by
  obtain ⟨mo, co, so, deo, cfo⟩ := raw
  refine ⟨?_, ?_, ?_, ?_⟩
  · intro inc h
    unfold parse_incident at h
    rcases mo with _ | mid <;> rcases co with _ | cat <;> rcases so with _ | sev <;>
      rcases deo with _ | desc <;> rcases cfo with _ | conf <;> simp at h
    rcases hc : categoryOfString cat with _ | c <;>
      rcases hs : severityOfString sev with _ | s <;> simp [hc, hs] at h
    obtain ⟨h01, hinc⟩ := h
    rw [← hinc]
    exact ⟨h01.1, h01.2, rfl⟩
  · intro cat hcat hnone
    subst hcat
    unfold parse_incident
    rcases mo with _ | mid <;> rcases so with _ | sev <;>
      rcases deo with _ | desc <;> rcases cfo with _ | conf <;>
      simp [hnone]
  · intro sev hsev hnone
    subst hsev
    unfold parse_incident
    rcases mo with _ | mid <;> rcases co with _ | cat <;>
      rcases deo with _ | desc <;> rcases cfo with _ | conf <;>
      simp [hnone]
  · intro conf hconf hnot
    subst hconf
    unfold parse_incident
    rcases mo with _ | mid <;> rcases co with _ | cat <;> rcases so with _ | sev <;>
      rcases deo with _ | desc <;> try simp
    rcases hc : categoryOfString cat with _ | c <;>
      rcases hs : severityOfString sev with _ | s <;> simp [hc, hs, hnot]

/-- Closed instance of C4_parse_boundary_amended: an in-range entry is
accepted with its confidence 9/10 unchanged, and an entry with the unknown
category phishing is rejected. -/
theorem C4_parse_boundary_amended_witness :
    (0 ≤ (9 / 10 : Rat) ∧ (9 / 10 : Rat) ≤ 1 ∧
      ({ message_id := some 2, category := some "leak", severity := some "high",
         description := some "d", confidence := some (9 / 10) } :
         RawIncident).confidence = some (9 / 10 : Rat)) ∧
    parse_incident 1 "Chat"
        { message_id := some 2, category := some "phishing", severity := some "high",
          description := some "d", confidence := some (9 / 10) } = none := by
  constructor
  · have h := (C4_parse_boundary_amended 1 "Chat"
      { message_id := some 2, category := some "leak", severity := some "high",
        description := some "d", confidence := some (9 / 10) }).1
      { message_id := 2, chat_id := 1, chat_name := "Chat",
        category := IncidentCategory.leak, severity := Severity.high,
        description := "d", confidence := 9 / 10 }
      (by
        have hcat : categoryOfString "leak" = some IncidentCategory.leak := by decide
        have hsev : severityOfString "high" = some Severity.high := by decide
        simp only [parse_incident, hcat, hsev]
        norm_num)
    exact ⟨h.1, h.2.1, h.2.2⟩
  · exact (C4_parse_boundary_amended 1 "Chat"
      { message_id := some 2, category := some "phishing", severity := some "high",
        description := some "d", confidence := some (9 / 10) }).2.1
      "phishing" rfl (by decide)

/- ===== Chunking lemmas ===== -/

/-- Concatenating the chunks gives back the input, for positive capacity. -/
theorem chunk_messages_flatten (size : Nat) (h : 0 < size) :
    ∀ (l : List MessageData), (_chunk_messages l size).flatten = l := by
  have key : ∀ (n : Nat) (l : List MessageData), l.length ≤ n →
      (_chunk_messages l size).flatten = l := by
    intro n
    induction n with
    | zero =>
      intro l hl
      rw [List.eq_nil_of_length_eq_zero (Nat.le_zero.mp hl)]
      simp [_chunk_messages]
    | succ n ihn =>
      intro l hl
      cases l with
      | nil => simp [_chunk_messages]
      | cons m ms =>
        have hrec : (ms.drop (size - 1)).length ≤ n := by
          simp only [List.length_drop]
          simp only [List.length_cons] at hl
          omega
        rw [_chunk_messages]
        rw [List.flatten_cons]
        rw [ihn (ms.drop (size - 1)) hrec]
        obtain ⟨k, rfl⟩ : ∃ k, size = k + 1 := ⟨size - 1, by omega⟩
        rw [List.take_succ_cons]
        simp only [Nat.add_sub_cancel]
        rw [List.cons_append, List.cons_inj_right]
        exact List.take_append_drop k ms
  exact fun l => key l.length l (le_refl _)

/-- Every chunk has at most `size` elements. -/
theorem chunk_messages_sizes (size : Nat) :
    ∀ (l : List MessageData) (c : List MessageData),
      c ∈ _chunk_messages l size → c.length ≤ size := by
  have key : ∀ (n : Nat) (l : List MessageData), l.length ≤ n →
      ∀ c ∈ _chunk_messages l size, c.length ≤ size := by
    intro n
    induction n with
    | zero =>
      intro l hl c hc
      rw [List.eq_nil_of_length_eq_zero (Nat.le_zero.mp hl)] at hc
      simp [_chunk_messages] at hc
    | succ n ihn =>
      intro l hl c hc
      cases l with
      | nil => simp [_chunk_messages] at hc
      | cons m ms =>
        have hrec : (ms.drop (size - 1)).length ≤ n := by
          simp only [List.length_drop]
          simp only [List.length_cons] at hl
          omega
        rw [_chunk_messages] at hc
        rcases List.mem_cons.mp hc with hc | hc
        · rw [hc, List.length_take]
          exact min_le_left _ _
        · exact ihn (ms.drop (size - 1)) hrec c hc
  exact fun l => key l.length l (le_refl _)

/-- The number of chunks is the ceiling of length over capacity. -/
theorem chunk_messages_count (size : Nat) (h : 0 < size) :
    ∀ (l : List MessageData),
      (_chunk_messages l size).length = (l.length + size - 1) / size := by
  have key : ∀ (n : Nat) (l : List MessageData), l.length ≤ n →
      (_chunk_messages l size).length = (l.length + size - 1) / size := by
    intro n
    induction n with
    | zero =>
      intro l hl
      rw [List.eq_nil_of_length_eq_zero (Nat.le_zero.mp hl)]
      simp only [_chunk_messages, List.length_nil]
      exact (Nat.div_eq_of_lt (by omega)).symm
    | succ n ihn =>
      intro l hl
      cases l with
      | nil =>
        simp only [_chunk_messages, List.length_nil]
        exact (Nat.div_eq_of_lt (by omega)).symm
      | cons m ms =>
        have hrec : (ms.drop (size - 1)).length ≤ n := by
          simp only [List.length_drop]
          simp only [List.length_cons] at hl
          omega
        rw [_chunk_messages]
        rw [List.length_cons]
        rw [ihn (ms.drop (size - 1)) hrec]
        rw [List.length_drop, List.length_cons]
        rcases Nat.lt_or_ge ms.length size with hlt | hge
        · have h0 : ms.length - (size - 1) = 0 := by omega
          rw [h0]
          rw [Nat.div_eq_of_lt (by omega)]
          exact (Nat.div_eq_of_lt_le (by omega) (by omega)).symm
        · have hsplit : ms.length + 1 + size - 1 = (ms.length - (size - 1) + size - 1) + size := by
            omega
          rw [hsplit, Nat.add_div_right _ h]
  exact fun l => key l.length l (le_refl _)

/- ===== Claim C6 ===== -/

/-- Claim C6: for chunk capacity C > 0, chunking an N-element input yields
exactly ceil(N/C) chunks, each of size at most C, whose in-order
concatenation is the original input (so nothing is duplicated or
dropped). -/
theorem C6_chunk_integrity (messages : List MessageData) (size : Nat) (h : 0 < size) :
    (_chunk_messages messages size).length = (messages.length + size - 1) / size ∧
    (∀ c ∈ _chunk_messages messages size, c.length ≤ size) ∧
    (_chunk_messages messages size).flatten = messages := by
  exact ⟨chunk_messages_count size h messages,
    fun c hc => chunk_messages_sizes size messages c hc,
    chunk_messages_flatten size h messages⟩

/-- Closed instance of C6_chunk_integrity: three messages with capacity
two give ceil(3/2) = 2 chunks of sizes 2 and 1 that concatenate to the
input. -/
theorem C6_chunk_integrity_witness :
    0 < 2 ∧
    (_chunk_messages
        [{ chat_id := 1, message_id := 10, timestamp := 0 },
         { chat_id := 1, message_id := 11, timestamp := 0 },
         { chat_id := 1, message_id := 12, timestamp := 0 }] 2).length = (3 + 2 - 1) / 2 ∧
    (_chunk_messages
        [{ chat_id := 1, message_id := 10, timestamp := 0 },
         { chat_id := 1, message_id := 11, timestamp := 0 },
         { chat_id := 1, message_id := 12, timestamp := 0 }] 2).flatten
      = [{ chat_id := 1, message_id := 10, timestamp := 0 },
         { chat_id := 1, message_id := 11, timestamp := 0 },
         { chat_id := 1, message_id := 12, timestamp := 0 }] := by
  refine ⟨by decide, ?_, ?_⟩
  · exact (C6_chunk_integrity
      [{ chat_id := 1, message_id := 10, timestamp := 0 },
       { chat_id := 1, message_id := 11, timestamp := 0 },
       { chat_id := 1, message_id := 12, timestamp := 0 }] 2 (by decide)).1.trans (by decide)
  · exact (C6_chunk_integrity
      [{ chat_id := 1, message_id := 10, timestamp := 0 },
       { chat_id := 1, message_id := 11, timestamp := 0 },
       { chat_id := 1, message_id := 12, timestamp := 0 }] 2 (by decide)).2.2

/- ===== Aggregation lemmas ===== -/

/-- An extend-style foldl is the flatten of the mapped pieces. -/
theorem foldl_extend_eq {α β : Type} (g : α → List β) :
    ∀ (l : List α) (acc : List β),
      l.foldl (fun a r => a ++ g r) acc = acc ++ (l.map g).flatten := by
  intro l
  induction l with
  | nil => intro acc; simp
  | cons r rest ih =>
    intro acc
    rw [List.foldl_cons, ih, List.map_cons, List.flatten_cons, List.append_assoc]

/-- Flattening an option-guarded map equals flattening over the present
elements. -/
theorem flatten_map_option {α β γ : Type} (pick : α → Option β) (f : β → List γ) :
    ∀ (l : List α),
      (l.map (fun r => match pick r with | some x => f x | none => ([] : List γ))).flatten
        = ((l.filterMap pick).map f).flatten := by
  intro l
  induction l with
  | nil => rfl
  | cons r rest ih =>
    rw [List.map_cons, List.flatten_cons, ih]
    cases hr : pick r with
    | none => rw [List.filterMap_cons_none hr]; rfl
    | some x => rw [List.filterMap_cons_some hr, List.map_cons, List.flatten_cons]

/- ===== Claim C7 ===== -/

/-- Claim C7: aggregate_results sums messagesAnalyzed and
voicesTranscribed, counts incidents per severity over the union of all
chats' incident lists, sums missing/extra participant counts over the
present participant reports and flattens their ids into two ordered lists,
and sets durationSeconds to endTime minus startTime; on the concrete
inputs messagesAnalyzed = [50, 30] with severities [critical, low] and
[high] it yields total_messages = 80 and counts critical 1, high 1,
medium 0, low 1. -/
theorem C7_aggregate_correctness :
    (∀ (chat_results : List ChatAnalysisResult) (start_time end_time : Rat),
      (aggregate_results chat_results start_time end_time).total_messages
          = (chat_results.map (fun r => r.messages_analyzed)).sum ∧
      (aggregate_results chat_results start_time end_time).total_voices
          = (chat_results.map (fun r => r.voices_transcribed)).sum ∧
      (aggregate_results chat_results start_time end_time).critical_incidents
          = ((chat_results.map (fun r => r.incidents)).flatten.countP
              (fun inc => inc.severity == Severity.critical)) ∧
      (aggregate_results chat_results start_time end_time).high_incidents
          = ((chat_results.map (fun r => r.incidents)).flatten.countP
              (fun inc => inc.severity == Severity.high)) ∧
      (aggregate_results chat_results start_time end_time).medium_incidents
          = ((chat_results.map (fun r => r.incidents)).flatten.countP
              (fun inc => inc.severity == Severity.medium)) ∧
      (aggregate_results chat_results start_time end_time).low_incidents
          = ((chat_results.map (fun r => r.incidents)).flatten.countP
              (fun inc => inc.severity == Severity.low)) ∧
      (aggregate_results chat_results start_time end_time).missing_participants
          = ((chat_results.filterMap (fun r => r.participant_report)).map
              (fun pr => pr.missing.length)).sum ∧
      (aggregate_results chat_results start_time end_time).extra_participants
          = ((chat_results.filterMap (fun r => r.participant_report)).map
              (fun pr => pr.extra.length)).sum ∧
      (aggregate_results chat_results start_time end_time).missing_ids
          = ((chat_results.filterMap (fun r => r.participant_report)).map
              (fun pr => pr.missing.map (fun p => p.user_id))).flatten ∧
      (aggregate_results chat_results start_time end_time).extra_ids
          = ((chat_results.filterMap (fun r => r.participant_report)).map
              (fun pr => pr.extra.map (fun p => p.user_id))).flatten ∧
      (aggregate_results chat_results start_time end_time).duration_seconds
          = end_time - start_time) ∧
    ((aggregate_results
        [{ chat_id := 1, chat_name := "a", messages_analyzed := 50, voices_transcribed := 0,
           incidents := [{ message_id := 1, chat_id := 1, chat_name := "a",
                           category := IncidentCategory.leak, severity := Severity.critical,
                           description := "k", confidence := 1 },
                         { message_id := 2, chat_id := 1, chat_name := "a",
                           category := IncidentCategory.spam, severity := Severity.low,
                           description := "s", confidence := 1 }] },
         { chat_id := 2, chat_name := "b", messages_analyzed := 30, voices_transcribed := 0,
           incidents := [{ message_id := 3, chat_id := 2, chat_name := "b",
                           category := IncidentCategory.inappropriate, severity := Severity.high,
                           description := "h", confidence := 1 }] }] 0 10).total_messages = 80 ∧
     (aggregate_results
        [{ chat_id := 1, chat_name := "a", messages_analyzed := 50, voices_transcribed := 0,
           incidents := [{ message_id := 1, chat_id := 1, chat_name := "a",
                           category := IncidentCategory.leak, severity := Severity.critical,
                           description := "k", confidence := 1 },
                         { message_id := 2, chat_id := 1, chat_name := "a",
                           category := IncidentCategory.spam, severity := Severity.low,
                           description := "s", confidence := 1 }] },
         { chat_id := 2, chat_name := "b", messages_analyzed := 30, voices_transcribed := 0,
           incidents := [{ message_id := 3, chat_id := 2, chat_name := "b",
                           category := IncidentCategory.inappropriate, severity := Severity.high,
                           description := "h", confidence := 1 }] }] 0 10).critical_incidents = 1 ∧
     (aggregate_results
        [{ chat_id := 1, chat_name := "a", messages_analyzed := 50, voices_transcribed := 0,
           incidents := [{ message_id := 1, chat_id := 1, chat_name := "a",
                           category := IncidentCategory.leak, severity := Severity.critical,
                           description := "k", confidence := 1 },
                         { message_id := 2, chat_id := 1, chat_name := "a",
                           category := IncidentCategory.spam, severity := Severity.low,
                           description := "s", confidence := 1 }] },
         { chat_id := 2, chat_name := "b", messages_analyzed := 30, voices_transcribed := 0,
           incidents := [{ message_id := 3, chat_id := 2, chat_name := "b",
                           category := IncidentCategory.inappropriate, severity := Severity.high,
                           description := "h", confidence := 1 }] }] 0 10).high_incidents = 1 ∧
     (aggregate_results
        [{ chat_id := 1, chat_name := "a", messages_analyzed := 50, voices_transcribed := 0,
           incidents := [{ message_id := 1, chat_id := 1, chat_name := "a",
                           category := IncidentCategory.leak, severity := Severity.critical,
                           description := "k", confidence := 1 },
                         { message_id := 2, chat_id := 1, chat_name := "a",
                           category := IncidentCategory.spam, severity := Severity.low,
                           description := "s", confidence := 1 }] },
         { chat_id := 2, chat_name := "b", messages_analyzed := 30, voices_transcribed := 0,
           incidents := [{ message_id := 3, chat_id := 2, chat_name := "b",
                           category := IncidentCategory.inappropriate, severity := Severity.high,
                           description := "h", confidence := 1 }] }] 0 10).medium_incidents = 0 ∧
     (aggregate_results
        [{ chat_id := 1, chat_name := "a", messages_analyzed := 50, voices_transcribed := 0,
           incidents := [{ message_id := 1, chat_id := 1, chat_name := "a",
                           category := IncidentCategory.leak, severity := Severity.critical,
                           description := "k", confidence := 1 },
                         { message_id := 2, chat_id := 1, chat_name := "a",
                           category := IncidentCategory.spam, severity := Severity.low,
                           description := "s", confidence := 1 }] },
         { chat_id := 2, chat_name := "b", messages_analyzed := 30, voices_transcribed := 0,
           incidents := [{ message_id := 3, chat_id := 2, chat_name := "b",
                           category := IncidentCategory.inappropriate, severity := Severity.high,
                           description := "h", confidence := 1 }] }] 0 10).low_incidents = 1) := by
  constructor
  · intro chat_results start_time end_time
    have hinc : chat_results.foldl (fun acc r => acc ++ r.incidents) []
        = (chat_results.map (fun r => r.incidents)).flatten := by
      rw [foldl_extend_eq (fun r => r.incidents) chat_results []]
      rfl
    have hmiss_gen : ∀ (l : List ChatAnalysisResult) (acc : List Int),
        l.foldl (fun acc r =>
          match r.participant_report with
          | some pr => acc ++ pr.missing.map (fun p => p.user_id)
          | none => acc) acc
        = acc ++ ((l.filterMap (fun r => r.participant_report)).map
            (fun pr => pr.missing.map (fun p => p.user_id))).flatten := by
      intro l
      induction l with
      | nil => intro acc; simp
      | cons r rest ih =>
        intro acc
        simp only [List.foldl_cons]
        cases hr : r.participant_report with
        | none =>
          rw [List.filterMap_cons_none hr]
          simp only [hr]
          exact ih acc
        | some pr =>
          rw [List.filterMap_cons_some hr]
          simp only [hr]
          rw [ih (acc ++ pr.missing.map (fun p => p.user_id))]
          rw [List.map_cons, List.flatten_cons, List.append_assoc]
    have hextra_gen : ∀ (l : List ChatAnalysisResult) (acc : List Int),
        l.foldl (fun acc r =>
          match r.participant_report with
          | some pr => acc ++ pr.extra.map (fun p => p.user_id)
          | none => acc) acc
        = acc ++ ((l.filterMap (fun r => r.participant_report)).map
            (fun pr => pr.extra.map (fun p => p.user_id))).flatten := by
      intro l
      induction l with
      | nil => intro acc; simp
      | cons r rest ih =>
        intro acc
        simp only [List.foldl_cons]
        cases hr : r.participant_report with
        | none =>
          rw [List.filterMap_cons_none hr]
          simp only [hr]
          exact ih acc
        | some pr =>
          rw [List.filterMap_cons_some hr]
          simp only [hr]
          rw [ih (acc ++ pr.extra.map (fun p => p.user_id))]
          rw [List.map_cons, List.flatten_cons, List.append_assoc]
    have hmiss := (hmiss_gen chat_results []).trans (List.nil_append _)
    have hextra := (hextra_gen chat_results []).trans (List.nil_append _)
    refine ⟨rfl, rfl, ?_, ?_, ?_, ?_, rfl, rfl, ?_, ?_, rfl⟩
    · show (chat_results.foldl (fun acc r => acc ++ r.incidents) []).countP _ = _
      rw [hinc]
    · show (chat_results.foldl (fun acc r => acc ++ r.incidents) []).countP _ = _
      rw [hinc]
    · show (chat_results.foldl (fun acc r => acc ++ r.incidents) []).countP _ = _
      rw [hinc]
    · show (chat_results.foldl (fun acc r => acc ++ r.incidents) []).countP _ = _
      rw [hinc]
    · exact hmiss
    · exact hextra
  · refine ⟨by decide, by decide, by decide, by decide, by decide⟩

/- ===== Participant reconciliation lemmas ===== -/

/-- A successful participant_lookup returns a roster entry with the looked
up id. -/
theorem participant_lookup_spec (participants : List ParticipantData) (uid : Int)
    (p : ParticipantData) (h : participant_lookup participants uid = some p) :
    p.user_id = uid ∧ p ∈ participants := by
  unfold participant_lookup at h
  refine ⟨?_, ?_⟩
  · have := List.find?_some h
    simpa using this
  · have := List.mem_of_find?_eq_some h
    exact List.mem_reverse.mp this

/-- participant_lookup succeeds for every id present in the roster. -/
theorem participant_lookup_isSome (participants : List ParticipantData) (uid : Int)
    (h : uid ∈ participants.map (fun p => p.user_id)) :
    (participant_lookup participants uid).isSome := by
  obtain ⟨p, hp, hpid⟩ := List.mem_map.mp h
  unfold participant_lookup
  rw [List.find?_isSome]
  exact ⟨p, List.mem_reverse.mpr hp, by simp [hpid]⟩

/-- Mapping user_id over the filterMapped lookups of present ids is the
identity on the id list. -/
theorem map_user_id_filterMap_lookup (participants : List ParticipantData) :
    ∀ (ids : List Int), (∀ uid ∈ ids, uid ∈ participants.map (fun p => p.user_id)) →
      ((ids.filterMap (fun uid => participant_lookup participants uid)).map
        (fun p => p.user_id)) = ids := by
  intro ids
  induction ids with
  | nil => intro _; rfl
  | cons uid rest ih =>
    intro h
    have hs := participant_lookup_isSome participants uid (h uid (List.mem_cons_self uid rest))
    obtain ⟨p, hp⟩ := Option.isSome_iff_exists.mp hs
    rw [List.filterMap_cons_some hp, List.map_cons]
    rw [(participant_lookup_spec participants uid p hp).1]
    rw [List.cons_inj_right]
    exact ih (fun x hx => h x (List.mem_cons_of_mem uid hx))

/- ===== Claim C8 ===== -/

/-- Claim C8: reconciliation reports missing as exactly the id-set
difference expected minus live (bare ids, no profile data) and extra as
exactly live minus expected, each extra entry being the full profile
snapshot the live roster holds for that id. -/
theorem C8_reconciliation (chat_id : Int) (chat_name : String)
    (participants : List ParticipantData) (whitelist : List Int) :
    ((compare_with_whitelist chat_id chat_name participants whitelist).missing.map
        (fun p => p.user_id)).toFinset
      = whitelist.toFinset \ (participants.map (fun p => p.user_id)).toFinset ∧
    (∀ p ∈ (compare_with_whitelist chat_id chat_name participants whitelist).missing,
      p.username = none ∧ p.first_name = none ∧ p.last_name = none ∧ p.is_bot = false) ∧
    ((compare_with_whitelist chat_id chat_name participants whitelist).extra.map
        (fun p => p.user_id)).toFinset
      = (participants.map (fun p => p.user_id)).toFinset \ whitelist.toFinset ∧
    (∀ p ∈ (compare_with_whitelist chat_id chat_name participants whitelist).extra,
      participant_lookup participants p.user_id = some p ∧ p ∈ participants) := by
  refine ⟨?_, ?_, ?_, ?_⟩
  · show ((((whitelist.toFinset \ (participants.map (fun p => p.user_id)).toFinset).sort
        (fun a b => a ≤ b)).map (fun uid => { user_id := uid : ParticipantData })).map
        (fun p => p.user_id)).toFinset = _
    rw [List.map_map]
    have hid : ((fun p => p.user_id) ∘ (fun uid => { user_id := uid : ParticipantData }))
        = fun uid => uid := rfl
    rw [hid, List.map_id_fun']
    exact Finset.sort_toFinset _ _
  · intro p hp
    obtain ⟨uid, _, hpe⟩ := List.mem_map.mp hp
    rw [← hpe]
    exact ⟨rfl, rfl, rfl, rfl⟩
  · show (((((participants.map (fun p => p.user_id)).toFinset \ whitelist.toFinset).sort
        (fun a b => a ≤ b)).filterMap (fun uid => participant_lookup participants uid)).map
        (fun p => p.user_id)).toFinset = _
    have hids : ∀ uid ∈ ((participants.map (fun p => p.user_id)).toFinset \
        whitelist.toFinset).sort (fun a b => a ≤ b),
        uid ∈ participants.map (fun p => p.user_id) := by
      intro uid huid
      rw [Finset.mem_sort] at huid
      exact List.mem_toFinset.mp (Finset.mem_sdiff.mp huid).1
    rw [map_user_id_filterMap_lookup participants _ hids]
    exact Finset.sort_toFinset _ _
  · intro p hp
    obtain ⟨uid, _, hlk⟩ := List.mem_filterMap.mp hp
    obtain ⟨hpid, hpm⟩ := participant_lookup_spec participants uid p hlk
    rw [← hpid] at hlk
    exact ⟨hlk, hpm⟩

/-- Closed instance of C8_reconciliation: live roster with ids 1, 2, 3 and
expected list [1, 3, 4] give missing id set exactly 4 and extra id set
exactly 2, the extra entry carrying the full live profile. -/
theorem C8_reconciliation_witness :
    ((compare_with_whitelist 7 "c"
        [{ user_id := 1, username := some "u1" }, { user_id := 2, username := some "u2" },
         { user_id := 3, username := some "u3" }] [1, 3, 4]).missing.map
        (fun p => p.user_id)).toFinset = ({4} : Finset Int) ∧
    ((compare_with_whitelist 7 "c"
        [{ user_id := 1, username := some "u1" }, { user_id := 2, username := some "u2" },
         { user_id := 3, username := some "u3" }] [1, 3, 4]).extra.map
        (fun p => p.user_id)).toFinset = ({2} : Finset Int) := by
  have h := C8_reconciliation 7 "c"
    [{ user_id := 1, username := some "u1" }, { user_id := 2, username := some "u2" },
     { user_id := 3, username := some "u3" }] [1, 3, 4]
  exact ⟨h.1.trans (by decide), h.2.2.1.trans (by decide)⟩

/- ===== Claim C9 ===== -/

/-- Claim C9 evaluated at the failing input: two consecutive admin triggers
(a second /scan while the first cycle is in flight, or the scan-now button
after /scan) each spawn a ScanJob.run task, leaving two concurrent cycles —
no single-slot run guard rejects or ignores the second trigger. -/
theorem C9_no_scan_run_guard :
    (cmd_scan 1 1 (cmd_scan 1 1 { running_scans := 0, replies := [] })).running_scans = 2 ∧
    (handle_scan_now 1 1 (cmd_scan 1 1 { running_scans := 0, replies := [] })).running_scans = 2 := by
  constructor <;> rfl

/- ===== Chunk-loop lemmas ===== -/

/-- With a store present, the store component of chunkLoop is chunkStores. -/
theorem chunkLoop_snd_some (env : AnalyzerEnv) (chat_id : Int) :
    ∀ (chunks : List (List MessageData)) (i : Nat) (acc : List Incident) (ps : ProcessedIds),
      (chunkLoop env chat_id i chunks acc (some ps)).2
        = some (chunkStores env chat_id i chunks ps) := by
  intro chunks
  induction chunks with
  | nil => intro i acc ps; rfl
  | cons chunk rest ih =>
    intro i acc ps
    rw [chunkLoop, chunkStores]
    cases hc : env.classify i with
    | some res => exact ih (i + 1) _ _
    | none => exact ih (i + 1) _ _

/-- Marks only accumulate: the initial rows survive the chunk loop. -/
theorem chunkStores_mono (env : AnalyzerEnv) (chat_id : Int) :
    ∀ (chunks : List (List MessageData)) (i : Nat) (ps : ProcessedIds) (p : Int × Int),
      p ∈ ps → p ∈ chunkStores env chat_id i chunks ps := by
  intro chunks
  induction chunks with
  | nil => intro i ps p hp; exact hp
  | cons chunk rest ih =>
    intro i ps p hp
    rw [chunkStores]
    cases hc : env.classify i with
    | some res =>
      exact ih (i + 1) _ p
        ((mem_mark_as_processed chat_id (chunk.map (fun m => m.message_id)) ps p).mpr
          (Or.inl hp))
    | none => exact ih (i + 1) _ p hp

/-- Every id of a successfully classified chunk is marked by the loop. -/
theorem chunkStores_mem_of_success (env : AnalyzerEnv) (chat_id : Int) :
    ∀ (chunks : List (List MessageData)) (i j : Nat) (chunk : List MessageData)
      (ps : ProcessedIds) (mid : Int),
      chunks[j]? = some chunk → (env.classify (i + j)).isSome →
      mid ∈ chunk.map (fun m => m.message_id) →
      (chat_id, mid) ∈ chunkStores env chat_id i chunks ps := by
  intro chunks
  induction chunks with
  | nil => intro i j chunk ps mid hj; simp at hj
  | cons c rest ih =>
    intro i j chunk ps mid hj hcl hmid
    cases j with
    | zero =>
      rw [List.getElem?_cons_zero, Option.some_inj] at hj
      rw [chunkStores]
      obtain ⟨res, hres⟩ := Option.isSome_iff_exists.mp (by simpa using hcl)
      rw [hres]
      refine chunkStores_mono env chat_id rest (i + 1) _ (chat_id, mid) ?_
      refine (mem_mark_as_processed chat_id _ ps (chat_id, mid)).mpr (Or.inr ⟨rfl, ?_⟩)
      rw [hj]
      exact hmid
    | succ k =>
      rw [List.getElem?_cons_succ] at hj
      have hcl2 : (env.classify (i + 1 + k)).isSome := by
        have harith : i + 1 + k = i + (k + 1) := by omega
        rw [harith]
        exact hcl
      rw [chunkStores]
      cases hc : env.classify i with
      | some res => exact ih (i + 1) k chunk _ mid hj hcl2 hmid
      | none => exact ih (i + 1) k chunk _ mid hj hcl2 hmid

/-- A row present after the chunk loop was present initially or belongs to
some successfully classified chunk. -/
theorem chunkStores_mem_elim (env : AnalyzerEnv) (chat_id : Int) :
    ∀ (chunks : List (List MessageData)) (i : Nat) (ps : ProcessedIds) (c : Int) (m : Int),
      (c, m) ∈ chunkStores env chat_id i chunks ps →
      (c, m) ∈ ps ∨ ∃ j chunk, chunks[j]? = some chunk ∧
        (env.classify (i + j)).isSome ∧ c = chat_id ∧
        m ∈ chunk.map (fun x => x.message_id) := by
  intro chunks
  induction chunks with
  | nil => intro i ps c m hm; exact Or.inl hm
  | cons ck rest ih =>
    intro i ps c m hm
    rw [chunkStores] at hm
    cases hc : env.classify i with
    | some res =>
      rw [hc] at hm
      rcases ih (i + 1) _ c m hm with hin | ⟨j, chunk, hj, hcl, hceq, hmk⟩
      · rcases (mem_mark_as_processed chat_id (ck.map (fun x => x.message_id)) ps
            (c, m)).mp hin with hin0 | ⟨hceq, hmk⟩
        · exact Or.inl hin0
        · refine Or.inr ⟨0, ck, List.getElem?_cons_zero, ?_, hceq, hmk⟩
          rw [Nat.add_zero, hc]
          rfl
      · refine Or.inr ⟨j + 1, chunk, ?_, ?_, hceq, hmk⟩
        · rw [List.getElem?_cons_succ]
          exact hj
        · have harith : i + (j + 1) = i + 1 + j := by omega
          rw [harith]
          exact hcl
    | none =>
      rw [hc] at hm
      rcases ih (i + 1) _ c m hm with hin | ⟨j, chunk, hj, hcl, hceq, hmk⟩
      · exact Or.inl hin
      · refine Or.inr ⟨j + 1, chunk, ?_, ?_, hceq, hmk⟩
        · rw [List.getElem?_cons_succ]
          exact hj
        · have harith : i + (j + 1) = i + 1 + j := by omega
          rw [harith]
          exact hcl

/- ===== process_chat plumbing lemmas ===== -/

/-- transcribeStep never changes the message id. -/
theorem transcribeStep_message_id (env : AnalyzerEnv) (m : MessageData) :
    (transcribeStep env m).message_id = m.message_id := by
  unfold transcribeStep
  split
  · cases env.transcribe m.message_id <;> rfl
  · rfl

/-- The ids of the transcribed working set are the ids of the working set. -/
theorem transcribed_ids (env : AnalyzerEnv) (l : List MessageData) :
    (l.map (transcribeStep env)).map (fun m => m.message_id)
      = l.map (fun m => m.message_id) := by
  rw [List.map_map]
  exact List.map_congr_left (fun m _ => transcribeStep_message_id env m)

/-- Every id of the deduplicated working set has no ledger row yet. -/
theorem dedup_working_set_not_in_ps (ps : ProcessedIds) (chat_id : Int)
    (messages : List MessageData) (mid : Int)
    (h : mid ∈ (dedup_working_set ps chat_id messages).map (fun m => m.message_id)) :
    (chat_id, mid) ∉ ps := by
  obtain ⟨m, hm, hmid⟩ := List.mem_map.mp h
  unfold dedup_working_set at hm
  have hq := (List.mem_filter.mp hm).2
  have hmem := of_decide_eq_true hq
  have := (mem_filter_new_messages ps chat_id _ m.message_id).mp hmem
  rw [← hmid]
  exact this.2

/-- The deduplicated working set is a sublist of the input. -/
theorem dedup_working_set_sublist (ps : ProcessedIds) (chat_id : Int)
    (messages : List MessageData) :
    (dedup_working_set ps chat_id messages).Sublist messages := by
  unfold dedup_working_set
  exact (List.filter_sublist _).trans (List.filter_sublist _)

/-- The second component of process_chat with a store present. -/
theorem process_chat_snd (env : AnalyzerEnv) (chat_id : Int) (chat_name : String)
    (messages : List MessageData) (ps : ProcessedIds) :
    (process_chat env chat_id chat_name messages (some ps)).2
      = some (chunkStores env chat_id 0 (analysis_chunks env chat_id ps messages) ps) := by
  by_cases h : (dedup_working_set ps chat_id messages).isEmpty
  · simp only [process_chat, h, if_true]
    simp only [analysis_chunks, List.isEmpty_iff.mp h, List.map_nil]
    simp [_chunk_messages, chunkStores]
  · simp only [process_chat, h, Bool.false_eq_true, if_false]
    simp only [analysis_chunks]
    exact chunkLoop_snd_some env chat_id _ 0 [] ps

/-- The flattened ids of the analysis chunks are the working-set ids. -/
theorem analysis_chunks_flatten_ids (env : AnalyzerEnv) (chat_id : Int)
    (ps : ProcessedIds) (messages : List MessageData) :
    ((analysis_chunks env chat_id ps messages).map
        (List.map (fun m => m.message_id))).flatten
      = (dedup_working_set ps chat_id messages).map (fun m => m.message_id) := by
  rw [← List.map_flatten]
  unfold analysis_chunks
  rw [chunk_messages_flatten 50 (by omega)]
  exact transcribed_ids env _

/- ===== Claim C2 ===== -/

/-- Claim C2: when the classification of chunk j raises, none of that
chunk's message ids are marked processed by the run (the loop continues
with the later chunks, whose marking is unaffected), and filtering those
ids against the final store still returns all of them; conversely, when
chunk j is classified successfully every one of its ids is marked in the
final store. The input messages are assumed to carry pairwise distinct
ids, as Telegram message ids within one chat are. -/
theorem C2_chunk_failure_isolation (env : AnalyzerEnv) (chat_id : Int)
    (chat_name : String) (messages : List MessageData) (ps : ProcessedIds)
    (hnd : (messages.map (fun m => m.message_id)).Nodup)
    (j : Nat) (chunk : List MessageData)
    (hj : (analysis_chunks env chat_id ps messages)[j]? = some chunk) :
    ∃ ps2, (process_chat env chat_id chat_name messages (some ps)).2 = some ps2 ∧
      ((env.classify j = none →
          (∀ mid ∈ chunk.map (fun m => m.message_id), (chat_id, mid) ∉ ps2) ∧
          filter_new_messages ps2 chat_id (chunk.map (fun m => m.message_id))
            = chunk.map (fun m => m.message_id)) ∧
       ((env.classify j).isSome →
          ∀ mid ∈ chunk.map (fun m => m.message_id), (chat_id, mid) ∈ ps2)) := by
  refine ⟨chunkStores env chat_id 0 (analysis_chunks env chat_id ps messages) ps,
    process_chat_snd env chat_id chat_name messages ps, ?_, ?_⟩
  · intro hfail
    have hwork_nodup : ((dedup_working_set ps chat_id messages).map
        (fun m => m.message_id)).Nodup :=
      ((dedup_working_set_sublist ps chat_id messages).map
        (fun m => m.message_id)).nodup hnd
    have hflat_nodup : (((analysis_chunks env chat_id ps messages).map
        (List.map (fun m => m.message_id))).flatten).Nodup := by
      rw [analysis_chunks_flatten_ids]
      exact hwork_nodup
    have hpair := (List.nodup_flatten.mp hflat_nodup).2
    have hnotin : ∀ mid ∈ chunk.map (fun m => m.message_id),
        (chat_id, mid) ∉ chunkStores env chat_id 0
          (analysis_chunks env chat_id ps messages) ps := by
      intro mid hmid hin
      rcases chunkStores_mem_elim env chat_id _ 0 ps chat_id mid hin with
        hin0 | ⟨k, chunk2, hk, hks, _, hmk⟩
      · refine dedup_working_set_not_in_ps ps chat_id messages mid ?_ hin0
        rw [← analysis_chunks_flatten_ids env chat_id ps messages]
        exact List.mem_flatten.mpr ⟨chunk.map (fun m => m.message_id),
          List.mem_map.mpr ⟨chunk, (List.getElem?_eq_some.mp hj).2 ▸
            List.getElem_mem (List.getElem?_eq_some.mp hj).1, rfl⟩, hmid⟩
      · have hkj : k ≠ j := by
          intro hkeq
          subst hkeq
          rw [Nat.zero_add, hfail] at hks
          simp at hks
        have hchunksIds_j : ((analysis_chunks env chat_id ps messages).map
            (List.map (fun m => m.message_id)))[j]?
            = some (chunk.map (fun m => m.message_id)) := by
          rw [List.getElem?_map, hj]
          rfl
        have hchunksIds_k : ((analysis_chunks env chat_id ps messages).map
            (List.map (fun m => m.message_id)))[k]?
            = some (chunk2.map (fun x => x.message_id)) := by
          rw [List.getElem?_map, hk]
          rfl
        obtain ⟨hjlt, hjeq⟩ := List.getElem?_eq_some.mp hchunksIds_j
        obtain ⟨hklt, hkeq⟩ := List.getElem?_eq_some.mp hchunksIds_k
        rw [Nat.zero_add] at hks
        rcases Nat.lt_or_ge k j with hlt | hge
        · have hd := (List.pairwise_iff_getElem.mp hpair) k j hklt hjlt hlt
          rw [hjeq, hkeq] at hd
          exact hd hmk hmid
        · have hlt2 : j < k := by omega
          have hd := (List.pairwise_iff_getElem.mp hpair) j k hjlt hklt hlt2
          rw [hjeq, hkeq] at hd
          exact hd hmid hmk
    refine ⟨hnotin, ?_⟩
    unfold filter_new_messages
    by_cases hemp : (chunk.map (fun m => m.message_id)).isEmpty
    · rw [if_pos hemp, List.isEmpty_iff.mp hemp]
    · rw [if_neg hemp]
      rw [List.filter_eq_self]
      intro mid hmid
      exact decide_eq_true (hnotin mid hmid)
  · intro hsucc mid hmid
    have hsucc0 : (env.classify (0 + j)).isSome := by
      rw [Nat.zero_add]
      exact hsucc
    exact chunkStores_mem_of_success env chat_id _ 0 j chunk ps mid hj hsucc0 hmid

/-- One message below capacity forms a single chunk. -/
theorem chunk_messages_singleton (m : MessageData) :
    _chunk_messages [m] 50 = [[m]] := by
  rw [_chunk_messages]
  norm_num
  rw [_chunk_messages]

/-- Closed instance of C2_chunk_failure_isolation: a single-voice-message
chat whose only chunk fails classification. -/
theorem C2_chunk_failure_isolation_witness :
    ∃ ps2, (process_chat
        { transcribe := fun _ => none, classify := fun _ => none } 5 "c"
        [{ chat_id := 5, message_id := 1, has_voice := true }]
        (some ([] : ProcessedIds))).2 = some ps2 ∧
      ((({ transcribe := fun _ => none, classify := fun _ => none } :
            AnalyzerEnv).classify 0 = none →
          (∀ mid ∈ ([{ chat_id := 5, message_id := 1, has_voice := true }] :
              List MessageData).map (fun m => m.message_id), (5, mid) ∉ ps2) ∧
          filter_new_messages ps2 5
              (([{ chat_id := 5, message_id := 1, has_voice := true }] :
                List MessageData).map (fun m => m.message_id))
            = ([{ chat_id := 5, message_id := 1, has_voice := true }] :
                List MessageData).map (fun m => m.message_id)) ∧
       ((({ transcribe := fun _ => none, classify := fun _ => none } :
            AnalyzerEnv).classify 0).isSome →
          ∀ mid ∈ ([{ chat_id := 5, message_id := 1, has_voice := true }] :
              List MessageData).map (fun m => m.message_id), (5, mid) ∈ ps2)) := by
  refine C2_chunk_failure_isolation
    { transcribe := fun _ => none, classify := fun _ => none } 5 "c"
    [{ chat_id := 5, message_id := 1, has_voice := true }] [] (by decide) 0
    [{ chat_id := 5, message_id := 1, has_voice := true }] ?_
  show (analysis_chunks { transcribe := fun _ => none, classify := fun _ => none } 5 []
    [{ chat_id := 5, message_id := 1, has_voice := true }])[0]? = _
  unfold analysis_chunks
  rw [show (dedup_working_set [] 5 [{ chat_id := 5, message_id := 1, has_voice := true }]).map
    (transcribeStep { transcribe := fun _ => none, classify := fun _ => none })
    = [{ chat_id := 5, message_id := 1, has_voice := true }] from rfl]
  rw [chunk_messages_singleton]
  rfl

/- ===== Claim C10 ===== -/

/-- Claim C10: messages_analyzed is the size of the deduplicated working
set — the input messages with non-blank text or a voice flag whose ids are
not yet in the processed ledger — fixed before any classification call;
a failing chunk still counts, so the count can exceed what got marked, as
the closed single-message failing run shows (one message analyzed, none
marked). -/
theorem C10_messages_analyzed_count :
    (∀ (env : AnalyzerEnv) (chat_id : Int) (chat_name : String)
        (messages : List MessageData) (ps : ProcessedIds),
      (process_chat env chat_id chat_name messages (some ps)).1.messages_analyzed
        = (messages.filter (fun m =>
            validMessage m && decide ((chat_id, m.message_id) ∉ ps))).length) ∧
    ((process_chat { transcribe := fun _ => none, classify := fun _ => none } 5 "c"
        [{ chat_id := 5, message_id := 1, has_voice := true }]
        (some ([] : ProcessedIds))).1.messages_analyzed = 1 ∧
     (process_chat { transcribe := fun _ => none, classify := fun _ => none } 5 "c"
        [{ chat_id := 5, message_id := 1, has_voice := true }]
        (some ([] : ProcessedIds))).2 = some ([] : ProcessedIds)) := by
  have hset : ∀ (chat_id : Int) (messages : List MessageData) (ps : ProcessedIds),
      dedup_working_set ps chat_id messages
        = messages.filter (fun m =>
            validMessage m && decide ((chat_id, m.message_id) ∉ ps)) := by
    intro chat_id messages ps
    unfold dedup_working_set
    rw [List.filter_filter]
    apply List.filter_congr
    intro m hm
    by_cases hv : validMessage m
    · have hm0 : m ∈ messages.filter validMessage := List.mem_filter.mpr ⟨hm, hv⟩
      have hids : m.message_id ∈ (messages.filter validMessage).map
          (fun m => m.message_id) := List.mem_map.mpr ⟨m, hm0, rfl⟩
      by_cases hps : (chat_id, m.message_id) ∈ ps
      · have hnot : m.message_id ∉ filter_new_messages ps chat_id
            ((messages.filter validMessage).map (fun m => m.message_id)) := by
          intro hc
          exact ((mem_filter_new_messages ps chat_id _ _).mp hc).2 hps
        simp [hv, hps, hnot]
      · have hyes : m.message_id ∈ filter_new_messages ps chat_id
            ((messages.filter validMessage).map (fun m => m.message_id)) :=
          (mem_filter_new_messages ps chat_id _ _).mpr ⟨hids, hps⟩
        simp [hv, hps, hyes]
    · simp [hv]
  constructor
  · intro env chat_id chat_name messages ps
    by_cases h : (dedup_working_set ps chat_id messages).isEmpty
    · simp only [process_chat, h, if_true]
      rw [← hset chat_id messages ps, List.isEmpty_iff.mp h]
      rfl
    · simp only [process_chat, h, Bool.false_eq_true, if_false]
      rw [List.length_map, hset chat_id messages ps]
  · constructor
    · rfl
    · rw [process_chat_snd]
      unfold analysis_chunks
      rw [show (dedup_working_set [] 5
          [{ chat_id := 5, message_id := 1, has_voice := true }]).map
        (transcribeStep { transcribe := fun _ => none, classify := fun _ => none })
        = [{ chat_id := 5, message_id := 1, has_voice := true }] from rfl]
      rw [chunk_messages_singleton]
      rfl

/- ===== Claim C1 ===== -/

/-- Claim C1 evaluated at the failing input: when the final
update_scan_log call itself raises (its exception is caught and only
logged, jobs.py lines 122-133), ScanJob.run returns with the run record
still in status running and with no end time — the record does not reach a
terminal status on this exit path. By contrast, when that call succeeds,
a failing aggregation/notification block still ends the record completed
with the end time set. -/
theorem C1_scan_run_finalization :
    ((ScanJob.run
        { create_log_fails := false, chat_outcomes := [], summary_fails := true,
          update_log_fails := true } [] 0 100).1.map (fun r => (r.status, r.end_time))
      = [("running", none)]) ∧
    ((ScanJob.run
        { create_log_fails := false, chat_outcomes := [], summary_fails := true,
          update_log_fails := false } [] 0 100).1.map (fun r => (r.status, r.end_time))
      = [("completed", some 100)]) := by
  constructor <;> decide

end AdminBot
